import Mathlib

/-!
Verification development for the windragon build script (build.py).

The script is a line-oriented text processor.  We embed it shallowly:
a source line is a `List Char` (as produced by Python's `readlines`,
i.e. retaining its trailing newline character), file contents are
`List Char`, the settings JSON document is an association list of
keys to JSON values, and the effectful orchestrator is modelled as a
pure function from its inputs (file contents, with the module folder
abstracted as a lookup function) to the ordered list of file-system
effects it performs.  Fallible paths (Python exceptions such as
KeyError / TypeError on a malformed settings document) are modelled
with `Option`, `none` standing for an uncaught exception.

Python's whitespace handling (`str.strip`, `str.rstrip`, regex `\s`)
is modelled over the six ASCII whitespace characters; the claims under
study involve only spaces, tabs and newlines.
-/

set_option maxHeartbeats 1000000
set_option maxRecDepth 10000

/-- Python source line, as returned by `readlines`: a list of characters,
normally ending with a newline character. -/
abbrev SrcLine := List Char

/-- ASCII whitespace, the fragment of Python's whitespace classes
(`str.strip` with no argument, regex `\s`) exercised by the program. -/
def isPySpace (c : Char) : Bool :=
  c == ' ' || c == '\t' || c == '\n' || c == '\r' || c == '\x0b' || c == '\x0c'

/-- Python `str.lstrip()`: drop leading whitespace. -/
def lstrip (l : List Char) : List Char := l.dropWhile isPySpace

/-- Python `str.rstrip()` (build.py uses it as `line.rstrip()`): drop
trailing whitespace, including a trailing newline. -/
def rstrip (l : List Char) : List Char := (l.reverse.dropWhile isPySpace).reverse

/-- Python `str.strip()`: drop leading and trailing whitespace. -/
def strip (l : List Char) : List Char := rstrip (lstrip l)

/-- Python `sub in s` for strings (`"Show-Dragon" in line` etc.):
substring containment, true for the empty needle. -/
def containsSub (needle : List Char) : List Char → Bool
  | [] => needle.isEmpty
  | c :: rest => needle.isPrefixOf (c :: rest) || containsSub needle rest

/-- Left-to-right scan implementing `re.sub(r"#.*", "", line)`: in
normal mode a `#` starts a deleted comment run; in comment mode every
character up to but excluding the next newline is deleted (regex `.`
does not match a newline), and the newline returns to normal mode. -/
def subHashAux : Bool → List Char → List Char
  | _, [] => []
  | true, c :: cs => if c = '\n' then c :: subHashAux false cs else subHashAux true cs
  | false, c :: cs => if c = '#' then subHashAux true cs else c :: subHashAux false cs

/-- Python `re.sub(r"#.*", "", line)` from clean_lines (build.py lines
51-53): each maximal run starting at a `#` and stopping before the next
newline is deleted. -/
def subHash (l : List Char) : List Char := subHashAux false l

/-- Python `readlines` on a text-mode file whose content is the given
character list: split after every newline, keeping the newline at the
end of each piece; a last piece without a trailing newline is kept,
and no empty last piece is produced. -/
def readlinesOf : List Char → List SrcLine
  | [] => []
  | c :: cs =>
    if c = '\n' then ['\n'] :: readlinesOf cs
    else
      match readlinesOf cs with
      | [] => [[c]]
      | l :: ls => (c :: l) :: ls

/-- The banner token of clean_lines (build.py line 42): any line
containing `Show-Dragon` switches the cleaner into verbatim mode. -/
def showDragonToken : List Char := "Show-Dragon".data

/-- One iteration of the clean_lines loop body (build.py lines 41-55),
as a function of the `inside_ascii_art` flag before the line and the
line itself, returning the emitted lines (zero or one) and the flag
after the line.  The source first sets the flag when the trigger token
occurs in the line and then branches on the flag; this is the single
branch on `trigger or flag`. -/
def cleanStep (inside : Bool) (line : SrcLine) : List SrcLine × Bool :=
  if containsSub showDragonToken line || inside then
    ([rstrip line], !(strip line).isEmpty)
  else
    (if (strip (subHash line)).isEmpty then [] else [strip (subHash line)], false)

/-- The clean_lines loop (build.py lines 39-56) threading the
`inside_ascii_art` flag through the input lines; returns the emitted
lines and the final flag value. -/
def cleanAux (inside : Bool) : List SrcLine → List SrcLine × Bool
  | [] => ([], inside)
  | l :: ls =>
    ((cleanStep inside l).1 ++ (cleanAux (cleanStep inside l).2 ls).1,
     (cleanAux (cleanStep inside l).2 ls).2)

/-- Python clean_lines (build.py lines 37-56).  The function takes only
the lines; the `inside_ascii_art` flag is a local variable initialised
to False on every call and is not returned. -/
def clean_lines (lines : List SrcLine) : List SrcLine := (cleanAux false lines).1

/-- The else-branch of the clean_lines loop (build.py lines 50-55): the
comment-cleaned, stripped line, emitted only when non-empty. -/
def cleanPlainEmit (line : SrcLine) : List SrcLine :=
  if (strip (subHash line)).isEmpty then [] else [strip (subHash line)]

/-- Minimal JSON value model for the settings document: the program
only ever stores strings, integers and objects in it. -/
inductive JVal where
  | jstr : List Char → JVal
  | jnum : Int → JVal
  | jobj : List (List Char × JVal) → JVal

/-- A parsed JSON object, as Python's `json.load` returns for the
settings file: an ordered association list of string keys to values
(Python dicts preserve insertion order and have unique keys). -/
abbrev Settings := List (List Char × JVal)

/-- Python `key in dict`. -/
def hasKey (s : Settings) (k : List Char) : Bool := s.any (fun p => p.1 = k)

/-- Python `dict[key]` as a partial lookup (first matching key). -/
def getKey : Settings → List Char → Option JVal
  | [], _ => none
  | (k2, v) :: rest, k => if k2 = k then some v else getKey rest k

/-- Python `dict[key] = value`: replace the value in place if the key
exists, otherwise append the new key at the end (insertion order). -/
def setKey : Settings → List Char → JVal → Settings
  | [], k, v => [(k, v)]
  | (k2, v2) :: rest, k, v =>
    if k2 = k then (k, v) :: rest else (k2, v2) :: setKey rest k v

/-- Key constant "version". -/
def verKey : List Char := "version".data

/-- Key constant "major". -/
def majorKey : List Char := "major".data

/-- Key constant "minor". -/
def minorKey : List Char := "minor".data

/-- Key constant "patch". -/
def patchKey : List Char := "patch".data

/-- Key constant "build". -/
def buildKey : List Char := "build".data

/-- The default version block `{"major": 1, "minor": 0, "patch": 0,
"build": 0}` (build.py lines 67 and 78). -/
def defaultVersionFields : Settings :=
  [(majorKey, JVal.jnum 1), (minorKey, JVal.jnum 0),
   (patchKey, JVal.jnum 0), (buildKey, JVal.jnum 0)]

/-- The default settings object written when the settings file is
absent (build.py lines 64-68). -/
def defaultSettings : Settings :=
  [("defaultSource".data, JVal.jstr "D:\\".data),
   ("defaultDestination".data, JVal.jstr "B:\\DayAfter".data),
   (verKey, JVal.jobj defaultVersionFields)]

/-- Python read_settings (build.py lines 59-79), with the file system
abstracted: the argument is the parsed settings file content (`none`
when the file is absent).  Returns the settings object produced
together with the content written back to the settings file (`none`
when nothing is written).  When the file is absent the defaults are
written and returned; when it exists but lacks the "version" key the
default version block is assigned into the parsed object. -/
def read_settings (file : Option Settings) : Settings × Option Settings :=
  match file with
  | none => (defaultSettings, some defaultSettings)
  | some s =>
    (if hasKey s verKey then s else setKey s verKey (JVal.jobj defaultVersionFields), none)

/-- Python update_build_number (build.py lines 82-92), with the file
system abstracted: returns the updated settings object, which the
source then writes in full to the settings file (overwrite); the
returned value is both the in-memory object and the file content.
`none` models the uncaught Python exception raised when the version
block or its "build"/"patch" entries are missing or non-numeric. -/
def update_build_number (s : Settings) : Option Settings :=
  match getKey s verKey with
  | some (JVal.jobj v) =>
    match getKey v buildKey with
    | some (JVal.jnum b) =>
      if b ≥ 9999 then
        match getKey v patchKey with
        | some (JVal.jnum p) =>
          some (setKey s verKey
            (JVal.jobj (setKey (setKey v buildKey (JVal.jnum 0)) patchKey (JVal.jnum (p + 1)))))
        | _ => none
      else
        some (setKey s verKey (JVal.jobj (setKey v buildKey (JVal.jnum (b + 1)))))
    | _ => none
  | _ => none

/-- Python get_version_string (build.py lines 95-99) applied to the
version block, for integer-valued fields (the only shape the program
itself ever writes): `"major.minor.patch.build"`.  `none` models a
version block lacking one of the four fields or holding a non-integer
there, which is outside the behaviour the claims exercise. -/
def get_version_string (v : Settings) : Option (List Char) :=
  match getKey v majorKey, getKey v minorKey, getKey v patchKey, getKey v buildKey with
  | some (JVal.jnum a), some (JVal.jnum b), some (JVal.jnum c), some (JVal.jnum d) =>
    some ((toString a).data ++ '.' :: (toString b).data ++ '.' ::
          (toString c).data ++ '.' :: (toString d).data)
  | _, _, _, _ => none

/-- The trigger token of the combiner's verbatim block (build.py line
129): a line containing `function Show-Dragon`. -/
def funcShowDragonToken : List Char := "function Show-Dragon".data

/-- The literal `\Modules\` that the import pattern requires inside the
referenced path. -/
def modulesToken : List Char := "\\Modules\\".data

/-- The literal `.ps1` that the import pattern requires at the end of
the referenced path. -/
def ps1Ext : List Char := ".ps1".data

/-- Python `re.compile(r"^\.\s+(.*\\Modules\\.*\.ps1)$").match(line)`
(build.py lines 123-125, 139), returning the captured group 1.  The
line must start with a dot followed by at least one whitespace
character; the remainder (with the final trailing newline excluded by
`$`, and containing no other newline since `.` does not match one)
must contain `\Modules\` and end in `.ps1`.  Because regex `\s+` is
greedy and prepending whitespace to a failing candidate cannot make
`.*\Modules\.*\.ps1` match, the captured group is exactly the
remainder after the maximal whitespace run. -/
def importMatch (line : SrcLine) : Option (List Char) :=
  match line with
  | '.' :: c :: rest =>
    if isPySpace c then
      let cand := List.dropWhile isPySpace (c :: rest)
      let core := if cand.getLast? = some '\n' then cand.dropLast else cand
      if core.all (fun d => d != '\n') && ps1Ext.isSuffixOf core && containsSub modulesToken core
      then some core else none
    else none
  | _ => none

/-- Python `Path(p).name` for the Windows-style paths the import
pattern accepts: the component after the last path separator
(backslash or forward slash).  build.py line 144 applies it to the
captured module path. -/
def winBasename (p : List Char) : List Char :=
  (p.reverse.takeWhile (fun c => c != '\\' && c != '/')).reverse

/-- One iteration of the combine_powershell_scripts loop body
(build.py lines 128-153), as a function of the `inside_show_dragon`
flag before the line and the line.  `fs` abstracts the Modules folder:
it maps a module file name to its `readlines` content when
`(Path(modules_folder) / name).exists()`, `none` otherwise.  As in
`cleanStep`, the source sets the flag on the trigger token and then
branches on it. -/
def combineStep (fs : List Char → Option (List SrcLine)) (inside : Bool) (line : SrcLine) :
    List SrcLine × Bool :=
  if containsSub funcShowDragonToken line || inside then
    ([rstrip line], !(strip line).isEmpty)
  else
    match importMatch line with
    | some mpath =>
      (match fs (winBasename mpath) with
       | some mlines => mlines
       | none => [], false)
    | none => (clean_lines [line], false)

/-- The combine_powershell_scripts loop (build.py lines 128-153)
threading the `inside_show_dragon` flag through the main-script
lines. -/
def combineAux (fs : List Char → Option (List SrcLine)) (inside : Bool) :
    List SrcLine → List SrcLine × Bool
  | [] => ([], inside)
  | l :: ls =>
    ((combineStep fs inside l).1 ++ (combineAux fs (combineStep fs inside l).2 ls).1,
     (combineAux fs (combineStep fs inside l).2 ls).2)

/-- Python combine_powershell_scripts (build.py lines 114-158) on the
`readlines` content of the main script, with the Modules folder
abstracted as `fs`; returns the accumulated combined_script list.  The
source then writes `"\n".join(combined_script)` to the output file
(see `renderOutput`). -/
def combine_powershell_scripts (mainLines : List SrcLine)
    (fs : List Char → Option (List SrcLine)) : List SrcLine :=
  (combineAux fs false mainLines).1

/-- Python `"\n".join(lines)` (build.py line 158 and line 197): the
file content written for a list of accumulated entries. -/
def renderOutput (lines : List SrcLine) : List Char :=
  List.intercalate ['\n'] lines

/-- The token update_launcher_script scans for (build.py line 185). -/
def scriptPathToken : List Char := "$winDragonScriptPath".data

/-- The fixed multi-line PowerShell snippet ps_code_to_insert
(build.py lines 164-177), appended as a single list entry. -/
def psCodeToInsert : List Char :=
  "\n    # Define a local temporary file path\n    $tempFilePath = \"$env:TEMP\\winDragon.ps1\"\n\n    # Download the script\n    try \x7b\n        Invoke-WebRequest -Uri $winDragonScriptURL -OutFile $tempFilePath -ErrorAction Stop\n        Write-Host \"WinDragon script downloaded successfully.\" -ForegroundColor Green\n    \x7d catch \x7b\n        Write-Host \"Failed to download the script: $_\" -ForegroundColor Red\n        exit\n    \x7d\n    $winDragonScriptPath = $tempFilePath\n    ".data

/-- The first replacement entry (build.py lines 187-189): the URL
assignment populated with the build artifact's filename. -/
def urlLine (outputFilename : List Char) : List Char :=
  "$winDragonScriptPath = \"https://raw.githubusercontent.com/galactic-plane/windragon/main/build/".data
    ++ outputFilename ++ ['"']

/-- The update_launcher_script loop (build.py lines 184-193) threading
the `found` flag through the launcher lines. -/
def launcherAux (outputFilename : List Char) (found : Bool) : List SrcLine → List SrcLine
  | [] => []
  | l :: rest =>
    if containsSub scriptPathToken l && !found then
      urlLine outputFilename :: psCodeToInsert :: launcherAux outputFilename true rest
    else
      rstrip l :: launcherAux outputFilename found rest

/-- Python update_launcher_script (build.py lines 161-197) on the
`readlines` content of the launcher file; `outputFile` is the build
artifact's output path, of which only the filename is used.  Returns
the updated_lines list; the source writes `"\n".join(updated_lines)`
to `build/<launcher filename>`. -/
def update_launcher_script (launcherLines : List SrcLine) (outputFile : List Char) :
    List SrcLine :=
  launcherAux (winBasename outputFile) false launcherLines

/-- File-system effects performed by the orchestrator, in execution
order.  `delBuildDir` is delete_build_directory, `loadSettings` the
read of the settings file, `saveSettings` a full overwrite of the
settings file with the given object, `writeArtifact` the combined
script written to the given output path, `writeLauncher` the patched
launcher written to the build directory, `printPath` the final console
report naming the output path. -/
inductive Event where
  | delBuildDir : Event
  | loadSettings : Event
  | saveSettings : Settings → Event
  | writeArtifact : List Char → List SrcLine → Event
  | writeLauncher : List SrcLine → Event
  | printPath : List Char → Event

/-- The inputs of one orchestrator run, with the file system
abstracted: the parsed settings file (`none` when absent), the
`readlines` content of winDragon.ps1, the Modules folder as a lookup
from module file name to `readlines` content, and the `readlines`
content of launcher.ps1. -/
structure BuildInput where
  settingsFile : Option Settings
  mainScript : List SrcLine
  modules : List Char → Option (List SrcLine)
  launcher : List SrcLine

/-- The orchestrator (build.py lines 200-224) as the ordered list of
file-system effects of one run: delete the build directory, read (and
possibly create) the settings file, write the combined artifact named
with the pre-advance version string, write the advanced settings,
write the patched launcher, print the output path.  Paths are rendered
with a forward-slash separator.  `none` models a run aborted by an
uncaught exception on a malformed settings document; the trace is only
produced for completed runs. -/
def mainRun (inp : BuildInput) : Option (List Event) :=
  let loaded := read_settings inp.settingsFile
  let createEvents : List Event :=
    match loaded.2 with
    | some s => [Event.saveSettings s]
    | none => []
  match getKey loaded.1 verKey with
  | some (JVal.jobj v) =>
    match get_version_string v with
    | some vs =>
      let outputFile := "build/winDragon_".data ++ vs ++ ".ps1".data
      match update_build_number loaded.1 with
      | some s2 =>
        some ([Event.delBuildDir, Event.loadSettings] ++ createEvents ++
          [Event.writeArtifact outputFile (combine_powershell_scripts inp.mainScript inp.modules),
           Event.saveSettings s2,
           Event.writeLauncher (update_launcher_script inp.launcher outputFile),
           Event.printPath outputFile])
      | none => none
    | none => none
  | _ => none

/-- Recogniser for a settings-file overwrite event. -/
def isSaveEvent : Event → Bool
  | Event.saveSettings _ => true
  | _ => false

/-- Recogniser for the patched-launcher write event. -/
def isLauncherEvent : Event → Bool
  | Event.writeLauncher _ => true
  | _ => false

/-- Concrete line "foo # bar" (spec section 8 example). -/
def fooBarLine : SrcLine := "foo # bar".data

/-- Concrete line "# only comment" (spec section 8 example). -/
def onlyCommentLine : SrcLine := "# only comment".data

/-- Concrete banner-trigger line: a call-site mention of Show-Dragon. -/
def dragonCallLine : SrcLine := "Show-Dragon\n".data

/-- Concrete comment line following a banner trigger. -/
def artLine : SrcLine := "# art\n".data

/-- Concrete blank line terminating a banner block. -/
def blankLine : SrcLine := "\n".data

/-- Concrete import line referencing Modules\Foo.ps1. -/
def exImportLine : SrcLine := ". C:\\proj\\Modules\\Foo.ps1\n".data

/-- Concrete ordinary main-script line with a trailing comment. -/
def exTailLine : SrcLine := "Write-Host hi # x\n".data

/-- Concrete module file content (spec section 8 example). -/
def exModContent : List Char := "X\n# c\nY\n".data

/-- The `readlines` view of `exModContent`. -/
def exModLines : List SrcLine := ["X\n".data, "# c\n".data, "Y\n".data]

/-- Concrete Modules folder holding only Foo.ps1 with `exModLines`. -/
def exFs : List Char → Option (List SrcLine) :=
  fun k => if k = "Foo.ps1".data then some exModLines else none

/-- Concrete empty Modules folder. -/
def exFsNone : List Char → Option (List SrcLine) := fun _ => none

/-- Concrete launcher line containing the target token. -/
def exLauncherA : SrcLine := "$winDragonScriptPath = $old\n".data

/-- Concrete second launcher line containing the token, with trailing
whitespace. -/
def exLauncherB : SrcLine := "$winDragonScriptPath   \n".data

/-- Concrete build artifact output path. -/
def exOutputFile : List Char := "build/winDragon_1.0.0.0.ps1".data

/-- Concrete version block carrying build 9998. -/
def exVersion9998 : Settings :=
  [(majorKey, JVal.jnum 2), (minorKey, JVal.jnum 3),
   (patchKey, JVal.jnum 4), (buildKey, JVal.jnum 9998)]

/-- Concrete settings object around `exVersion9998`. -/
def exSettings9998 : Settings := [(verKey, JVal.jobj exVersion9998)]

/-- Concrete version block carrying build 9999. -/
def exVersion9999 : Settings :=
  [(majorKey, JVal.jnum 2), (minorKey, JVal.jnum 3),
   (patchKey, JVal.jnum 4), (buildKey, JVal.jnum 9999)]

/-- Concrete settings object around `exVersion9999`. -/
def exSettings9999 : Settings := [(verKey, JVal.jobj exVersion9999)]

/-- Concrete settings object lacking the "version" key. -/
def exSettingsNoVersion : Settings :=
  [("defaultSource".data, JVal.jstr "D:\\".data)]

/-- Concrete orchestrator input: settings file present with the default
content, empty main script, empty Modules folder, empty launcher. -/
def exBuildInput : BuildInput :=
  { settingsFile := some defaultSettings
    mainScript := []
    modules := fun _ => none
    launcher := [] }

/-- The clean_lines loop splits over list append: the flag after the
first part feeds the second part. -/
theorem cleanAux_append (b : Bool) (xs ys : List SrcLine) :
    cleanAux b (xs ++ ys) =
      ((cleanAux b xs).1 ++ (cleanAux (cleanAux b xs).2 ys).1,
       (cleanAux (cleanAux b xs).2 ys).2) := by
  induction xs generalizing b with
  | nil => simp [cleanAux]
  | cons l ls ih => simp [cleanAux, ih, List.append_assoc]

/-- The combiner loop splits over list append likewise. -/
theorem combineAux_append (fs : List Char → Option (List SrcLine)) (b : Bool)
    (xs ys : List SrcLine) :
    combineAux fs b (xs ++ ys) =
      ((combineAux fs b xs).1 ++ (combineAux fs (combineAux fs b xs).2 ys).1,
       (combineAux fs (combineAux fs b xs).2 ys).2) := by
  induction xs generalizing b with
  | nil => simp [combineAux]
  | cons l ls ih => simp [combineAux, ih, List.append_assoc]

/-- Looking up a key right after assigning it yields the assigned
value. -/
theorem getKey_setKey_self (s : Settings) (k : List Char) (v : JVal) :
    getKey (setKey s k v) k = some v := by
  induction s with
  | nil => simp [setKey, getKey]
  | cons p rest ih =>
    by_cases h : p.1 = k
    · simp [setKey, getKey, h]
    · simp [setKey, getKey, h, ih]

/-- Assigning one key leaves lookups of any other key unchanged. -/
theorem getKey_setKey_ne (s : Settings) (k k' : List Char) (v : JVal) (h : k' ≠ k) :
    getKey (setKey s k v) k' = getKey s k' := by
  have hkk : ¬ k = k' := fun hh => h hh.symm
  induction s with
  | nil => simp [setKey, getKey, hkk]
  | cons p rest ih =>
    by_cases h2 : p.1 = k
    · simp [setKey, getKey, h2, hkk]
    · simp [setKey, getKey, h2, ih]

/-- Assigning an absent key appends it at the end of the object. -/
theorem setKey_not_has (s : Settings) (k : List Char) (v : JVal)
    (h : hasKey s k = false) : setKey s k v = s ++ [(k, v)] := by
  induction s with
  | nil => simp [setKey]
  | cons p rest ih =>
    simp only [hasKey, List.any_cons, Bool.or_eq_false_iff] at h
    obtain ⟨h1, h2⟩ := h
    have h1' : ¬ p.1 = k := by simpa using h1
    simp [setKey, h1', ih h2]

/-- A list whose strip is empty consists of whitespace only. -/
theorem all_space_of_strip_empty (l : List Char) (h : (strip l).isEmpty = true) :
    ∀ c ∈ l, isPySpace c = true := by
  intro c hc
  simp only [strip, rstrip, lstrip, List.isEmpty_iff, List.reverse_eq_nil_iff,
    List.dropWhile_eq_nil_iff, List.mem_reverse] at h
  rcases List.mem_append.mp
    ((List.takeWhile_append_dropWhile (p := isPySpace) (l := l)) ▸ hc) with h1 | h2
  · exact List.mem_takeWhile_imp h1
  · exact h c h2

/-- A substring occurrence decomposes the ambient list. -/
theorem containsSub_decomp (needle l : List Char) (h : containsSub needle l = true) :
    ∃ pre suf, l = pre ++ needle ++ suf := by
  induction l with
  | nil =>
    simp only [containsSub, List.isEmpty_iff] at h
    exact ⟨[], [], by simp [h]⟩
  | cons c rest ih =>
    simp only [containsSub, Bool.or_eq_true] at h
    rcases h with h | h
    · obtain ⟨t, ht⟩ := List.isPrefixOf_iff_prefix.mp h
      exact ⟨[], t, by simp [ht]⟩
    · rcases ih h with ⟨pre, suf, hps⟩
      exact ⟨c :: pre, suf, by simp [hps]⟩

/-- A line containing a non-whitespace character does not strip to
empty; stated for substring containment of a token holding one. -/
theorem strip_not_empty_of_token (tok l : List Char) (c : Char)
    (hc : c ∈ tok) (hcs : isPySpace c = false) (h : containsSub tok l = true) :
    (strip l).isEmpty = false := by
  rcases containsSub_decomp tok l h with ⟨pre, suf, hps⟩
  by_contra hne
  have hall := all_space_of_strip_empty l (by simpa using hne)
  have : isPySpace c = true := hall c (by simp [hps, hc])
  simp [hcs] at this

/-- After the token has been found, the launcher loop only strips
trailing whitespace from every remaining line. -/
theorem launcherAux_found (n : List Char) (ls : List SrcLine) :
    launcherAux n true ls = ls.map rstrip := by
  induction ls with
  | nil => simp [launcherAux]
  | cons l rest ih => simp [launcherAux, ih]

/-- Claim C1: update_build_number, on settings whose version.build is
strictly below 9999, increments build by exactly 1 and leaves patch
unchanged; on settings whose version.build is at least 9999, it resets
build to 0 and increments patch by exactly 1.  In both cases the
returned object is the full updated settings document, which the
source writes to the settings file (the embedding returns exactly the
written content). -/
theorem update_build_number_correct (s v : Settings) (b p : Int)
    (hv : getKey s verKey = some (JVal.jobj v))
    (hb : getKey v buildKey = some (JVal.jnum b))
    (hp : getKey v patchKey = some (JVal.jnum p)) :
    (b < 9999 →
      update_build_number s =
        some (setKey s verKey (JVal.jobj (setKey v buildKey (JVal.jnum (b + 1))))) ∧
      getKey (setKey v buildKey (JVal.jnum (b + 1))) buildKey = some (JVal.jnum (b + 1)) ∧
      getKey (setKey v buildKey (JVal.jnum (b + 1))) patchKey = some (JVal.jnum p)) ∧
    (9999 ≤ b →
      update_build_number s =
        some (setKey s verKey (JVal.jobj
          (setKey (setKey v buildKey (JVal.jnum 0)) patchKey (JVal.jnum (p + 1))))) ∧
      getKey (setKey (setKey v buildKey (JVal.jnum 0)) patchKey (JVal.jnum (p + 1))) buildKey =
        some (JVal.jnum 0) ∧
      getKey (setKey (setKey v buildKey (JVal.jnum 0)) patchKey (JVal.jnum (p + 1))) patchKey =
        some (JVal.jnum (p + 1))) := by
  constructor
  · intro hlt
    refine ⟨?_, ?_, ?_⟩
    · simp [update_build_number, hv, hb, not_le.mpr hlt]
    · exact getKey_setKey_self v buildKey _
    · rw [getKey_setKey_ne v buildKey patchKey _ (by decide)]
      exact hp
  · intro hge
    refine ⟨?_, ?_, ?_⟩
    · simp [update_build_number, hv, hb, hp, hge]
    · rw [getKey_setKey_ne _ patchKey buildKey _ (by decide)]
      exact getKey_setKey_self v buildKey _
    · exact getKey_setKey_self _ patchKey _

/-- Witness for C1 at build 9998 (yielding 9999, patch unchanged) and
at build 9999 (yielding 0, patch incremented). -/
theorem update_build_number_correct_witness :
    update_build_number exSettings9998 =
      some [(verKey, JVal.jobj [(majorKey, JVal.jnum 2), (minorKey, JVal.jnum 3),
        (patchKey, JVal.jnum 4), (buildKey, JVal.jnum 9999)])] ∧
    update_build_number exSettings9999 =
      some [(verKey, JVal.jobj [(majorKey, JVal.jnum 2), (minorKey, JVal.jnum 3),
        (patchKey, JVal.jnum 5), (buildKey, JVal.jnum 0)])] := by
  constructor
  · exact ((update_build_number_correct exSettings9998 exVersion9998 9998 4
      rfl rfl rfl).1 (by norm_num)).1.trans rfl
  · exact ((update_build_number_correct exSettings9999 exVersion9999 9999 4
      rfl rfl rfl).2 (by norm_num)).1.trans rfl

/-- Claim C9: with the settings file absent, read_settings returns the
documented default object and writes that same object to disk; with
the file present but lacking the "version" key, it returns the parsed
object with the default version block appended, every other key
untouched, and writes nothing. -/
theorem read_settings_defaults (s : Settings) (h : hasKey s verKey = false) :
    read_settings none = (defaultSettings, some defaultSettings) ∧
    read_settings (some s) = (s ++ [(verKey, JVal.jobj defaultVersionFields)], none) ∧
    getKey (s ++ [(verKey, JVal.jobj defaultVersionFields)]) verKey =
      some (JVal.jobj defaultVersionFields) ∧
    ∀ k, k ≠ verKey →
      getKey (s ++ [(verKey, JVal.jobj defaultVersionFields)]) k = getKey s k := by
  refine ⟨rfl, ?_, ?_, ?_⟩
  · simp [read_settings, h, setKey_not_has s verKey _ h]
  · rw [← setKey_not_has s verKey _ h]
    exact getKey_setKey_self s verKey _
  · intro k hk
    rw [← setKey_not_has s verKey _ h]
    exact getKey_setKey_ne s verKey k _ hk

/-- Witness for C9 at a concrete settings object lacking "version". -/
theorem read_settings_defaults_witness :
    read_settings (some exSettingsNoVersion) =
      (exSettingsNoVersion ++ [(verKey, JVal.jobj defaultVersionFields)], none) ∧
    read_settings none = (defaultSettings, some defaultSettings) :=
  ⟨(read_settings_defaults exSettingsNoVersion (by decide)).2.1,
   (read_settings_defaults exSettingsNoVersion (by decide)).1⟩

/-- Claim C5 is false of the code: clean_lines takes no standing
verbatim flag and returns none; its flag is a local initialised False
on every call.  Counterexample: a banner trigger line and the next
banner line fed one call at a time — the second call comment-cleans
its line to nothing instead of emitting it verbatim (as the same two
lines fed in a single call show it would with a carried flag). -/
theorem clean_lines_no_carried_flag_cex :
    clean_lines [dragonCallLine] = ["Show-Dragon".data] ∧
    clean_lines [artLine] = [] ∧
    clean_lines [artLine] ≠ [rstrip artLine] ∧
    clean_lines [dragonCallLine, artLine] = ["Show-Dragon".data, "# art".data] :=
  ⟨by decide, by decide, by decide, by decide⟩

/-- Claim C5 (amended): clean_lines takes only its input lines and
returns only the filtered lines; its inside-verbatim flag is a local
initialised false on each call, so verbatim mode never persists across
calls — a single-line call whose line does not contain the trigger
token is always comment-cleaned in non-verbatim mode. -/
theorem clean_lines_single_call (l : SrcLine)
    (h : containsSub showDragonToken l = false) :
    clean_lines [l] = cleanPlainEmit l := by
  simp [clean_lines, cleanAux, cleanStep, cleanPlainEmit, h]

/-- Witness for the amended C5 at the concrete banner line. -/
theorem clean_lines_single_call_witness :
    clean_lines [artLine] = cleanPlainEmit artLine ∧ cleanPlainEmit artLine = [] :=
  ⟨clean_lines_single_call artLine (by decide), by decide⟩

/-- Claim C6: a line reached by clean_lines with the verbatim flag
false and not itself containing the trigger token is emitted as the
whitespace-stripped remainder before its first hash character, and
only when that remainder is non-empty (`cleanPlainEmit`). -/
theorem clean_lines_nonverbatim (pre : List SrcLine) (l : SrcLine)
    (hpre : (cleanAux false pre).2 = false)
    (hl : containsSub showDragonToken l = false) :
    clean_lines (pre ++ [l]) = clean_lines pre ++ cleanPlainEmit l := by
  unfold clean_lines
  rw [cleanAux_append, hpre]
  simp [cleanAux, cleanStep, cleanPlainEmit, hl]

/-- Witness for C6: "foo # bar" yields exactly "foo" and
"# only comment" yields nothing. -/
theorem clean_lines_nonverbatim_witness :
    clean_lines ([] ++ [fooBarLine]) = ["foo".data] ∧
    clean_lines ([] ++ [onlyCommentLine]) = [] :=
  ⟨(clean_lines_nonverbatim [] fooBarLine rfl (by decide)).trans (by decide),
   (clean_lines_nonverbatim [] onlyCommentLine rfl (by decide)).trans (by decide)⟩

/-- Claim C7: within one clean_lines call, a banner-trigger line
followed by non-blank lines and then one blank line is emitted
verbatim except for trailing-whitespace trimming (the blank line
itself appearing as the empty line that ends the block), and normal
comment cleaning resumes strictly after the blank line. -/
theorem clean_lines_banner_block (t b : SrcLine) (mid post : List SrcLine)
    (ht : containsSub showDragonToken t = true)
    (hmid : ∀ l ∈ mid, (strip l).isEmpty = false)
    (hb : (strip b).isEmpty = true) :
    clean_lines (t :: (mid ++ b :: post)) =
      rstrip t :: (mid.map rstrip ++ rstrip b :: clean_lines post) := by
  have hstep : ∀ ms, (∀ l ∈ ms, (strip l).isEmpty = false) →
      cleanAux true (ms ++ b :: post) =
        (ms.map rstrip ++ rstrip b :: (cleanAux false post).1, (cleanAux false post).2) := by
    intro ms
    induction ms with
    | nil =>
      intro _
      simp [cleanAux, cleanStep, hb]
    | cons m mss ih =>
      intro hms
      have hm := hms m (by simp)
      have ih2 := ih (fun l hl => hms l (by simp [hl]))
      simp [cleanAux, cleanStep, hm, ih2]
  have htt : (strip t).isEmpty = false :=
    strip_not_empty_of_token showDragonToken t 'S' (by decide) (by decide) ht
  unfold clean_lines
  simp [cleanAux, cleanStep, ht, htt, hstep mid hmid]

/-- Witness for C7 at a concrete banner block followed by a comment
line that is cleaned away. -/
theorem clean_lines_banner_block_witness :
    clean_lines (dragonCallLine :: ([artLine] ++ blankLine :: [onlyCommentLine])) =
      ["Show-Dragon".data, "# art".data, []] := by
  have h := clean_lines_banner_block dragonCallLine blankLine [artLine] [onlyCommentLine]
    (by decide) (by decide) (by decide)
  exact h.trans (by decide)

/-- Claim C3: a main-script line matching the import pattern, reached
outside the verbatim block and not itself containing the combiner's
trigger token, whose resolved module file exists, causes exactly that
module file's lines to be appended completely unmodified — no
cleaning, no trimming, and no recursion into the inserted lines (the
scan continues with the following main-script lines only). -/
theorem combine_inlines_module (fs : List Char → Option (List SrcLine))
    (pre post : List SrcLine) (l : SrcLine) (mpath : List Char) (mlines : List SrcLine)
    (hpre : (combineAux fs false pre).2 = false)
    (htrig : containsSub funcShowDragonToken l = false)
    (hmatch : importMatch l = some mpath)
    (hfs : fs (winBasename mpath) = some mlines) :
    combine_powershell_scripts (pre ++ l :: post) fs =
      combine_powershell_scripts pre fs ++ mlines ++ combine_powershell_scripts post fs := by
  unfold combine_powershell_scripts
  rw [show pre ++ l :: post = pre ++ ([l] ++ post) from rfl, combineAux_append, hpre,
    combineAux_append]
  simp [combineAux, combineStep, htrig, hmatch, hfs]

/-- Witness for C3: the spec section 8 example, with module content
X / commented line / Y inlined verbatim. -/
theorem combine_inlines_module_witness :
    combine_powershell_scripts ([] ++ exImportLine :: [exTailLine]) exFs =
      [] ++ exModLines ++ ["Write-Host hi".data] := by
  have h := combine_inlines_module exFs [] [exTailLine] exImportLine
    "C:\\proj\\Modules\\Foo.ps1".data exModLines rfl (by decide) (by decide) (by decide)
  exact h.trans (by decide)

/-- Claim C4: a main-script line matching the import pattern, reached
outside the verbatim block, whose resolved module file does not exist,
contributes nothing to the output: neither the module content nor
the import line itself appears, no error is raised (the embedding of
this path is total) and nothing is logged. -/
theorem combine_missing_module (fs : List Char → Option (List SrcLine))
    (pre post : List SrcLine) (l : SrcLine) (mpath : List Char)
    (hpre : (combineAux fs false pre).2 = false)
    (htrig : containsSub funcShowDragonToken l = false)
    (hmatch : importMatch l = some mpath)
    (hfs : fs (winBasename mpath) = none) :
    combine_powershell_scripts (pre ++ l :: post) fs =
      combine_powershell_scripts pre fs ++ combine_powershell_scripts post fs := by
  unfold combine_powershell_scripts
  rw [show pre ++ l :: post = pre ++ ([l] ++ post) from rfl, combineAux_append, hpre,
    combineAux_append]
  simp [combineAux, combineStep, htrig, hmatch, hfs]

/-- Witness for C4: with the Modules folder empty, the import line is
dropped and only the cleaned ordinary line remains. -/
theorem combine_missing_module_witness :
    combine_powershell_scripts ([] ++ exImportLine :: [exTailLine]) exFsNone =
      [] ++ ["Write-Host hi".data] := by
  have h := combine_missing_module exFsNone [] [exTailLine] exImportLine
    "C:\\proj\\Modules\\Foo.ps1".data rfl (by decide) (by decide) (by decide)
  exact h.trans (by decide)

/-- Claim C8 is false of the code as stated: a line containing the
token after the first replacement is not passed through unmodified —
like every non-replaced line it is written with trailing whitespace
stripped.  Counterexample: a second token line carrying trailing
whitespace loses it. -/
theorem launcher_second_token_cex :
    update_launcher_script [exLauncherA, exLauncherB] exOutputFile =
      [urlLine "winDragon_1.0.0.0.ps1".data, psCodeToInsert,
       "$winDragonScriptPath".data] ∧
    containsSub scriptPathToken exLauncherB = true ∧
    "$winDragonScriptPath".data ≠ exLauncherB :=
  ⟨by decide, by decide, by decide⟩

/-- Claim C8 (amended): the first launcher line containing the token
is replaced by exactly two entries — the URL assignment populated with
the artifact filename and the fixed download snippet as one block —
and every other line, later token-bearing lines included, is passed
through with trailing whitespace stripped. -/
theorem launcher_first_token_only (outputFile : List Char) (pre post : List SrcLine)
    (l : SrcLine)
    (hpre : ∀ p ∈ pre, containsSub scriptPathToken p = false)
    (hl : containsSub scriptPathToken l = true) :
    update_launcher_script (pre ++ l :: post) outputFile =
      pre.map rstrip ++ urlLine (winBasename outputFile) :: psCodeToInsert ::
        post.map rstrip := by
  unfold update_launcher_script
  induction pre with
  | nil => simp [launcherAux, hl, launcherAux_found]
  | cons p ps ih =>
    have hp := hpre p (by simp)
    have ih2 := ih (fun q hq => hpre q (by simp [hq]))
    simp [launcherAux, hp, ih2]

/-- Witness for the amended C8 at a concrete launcher with a plain
line, a token line, and a second token line. -/
theorem launcher_first_token_only_witness :
    update_launcher_script (["Write-Host go  \n".data] ++ exLauncherA :: [exLauncherB])
        exOutputFile =
      ["Write-Host go".data, urlLine "winDragon_1.0.0.0.ps1".data, psCodeToInsert,
       "$winDragonScriptPath".data] := by
  have h := launcher_first_token_only exOutputFile ["Write-Host go  \n".data] [exLauncherB]
    exLauncherA (by decide) (by decide)
  exact h.trans (by decide)

/-- Claim C2 is false of the code as stated: the orchestrator advances
and persists the build number (build.py line 219) before it runs the
Patcher (line 221), not after.  Counterexample: on a concrete run the
settings-file overwrite occupies position 3 of the effect trace and
the patched-launcher write position 4. -/
theorem orchestrator_order_cex :
    (mainRun exBuildInput).map (fun evs =>
      (evs.findIdx? isSaveEvent, evs.findIdx? isLauncherEvent)) =
      some (some 3, some 4) ∧ (3 : Nat) < 4 :=
  ⟨rfl, by norm_num⟩

/-- Claim C2 (amended): the orchestrator deletes the output directory,
loads settings, computes the version string, runs the Combiner writing
the artifact named with that version string, advances and persists the
build number, then runs the Patcher using that same artifact filename,
then prints the output path; the artifact's filename reflects the
version as loaded before this run's increment. -/
theorem orchestrator_order (inp : BuildInput) (s v : Settings) (vs : List Char)
    (s2 : Settings)
    (hfile : inp.settingsFile = some s)
    (hhas : hasKey s verKey = true)
    (hv : getKey s verKey = some (JVal.jobj v))
    (hvs : get_version_string v = some vs)
    (hupd : update_build_number s = some s2) :
    mainRun inp =
      some [Event.delBuildDir, Event.loadSettings,
        Event.writeArtifact ("build/winDragon_".data ++ vs ++ ".ps1".data)
          (combine_powershell_scripts inp.mainScript inp.modules),
        Event.saveSettings s2,
        Event.writeLauncher (update_launcher_script inp.launcher
          ("build/winDragon_".data ++ vs ++ ".ps1".data)),
        Event.printPath ("build/winDragon_".data ++ vs ++ ".ps1".data)] := by
  unfold mainRun
  rw [hfile]
  simp [read_settings, hhas, hv, hvs, hupd]

/-- Witness for the amended C2 on a concrete run with the default
settings file present. -/
theorem orchestrator_order_witness :
    mainRun exBuildInput =
      some [Event.delBuildDir, Event.loadSettings,
        Event.writeArtifact ("build/winDragon_".data ++ "1.0.0.0".data ++ ".ps1".data)
          (combine_powershell_scripts exBuildInput.mainScript exBuildInput.modules),
        Event.saveSettings (setKey defaultSettings verKey
          (JVal.jobj (setKey defaultVersionFields buildKey (JVal.jnum 1)))),
        Event.writeLauncher (update_launcher_script exBuildInput.launcher
          ("build/winDragon_".data ++ "1.0.0.0".data ++ ".ps1".data)),
        Event.printPath ("build/winDragon_".data ++ "1.0.0.0".data ++ ".ps1".data)] :=
  orchestrator_order exBuildInput defaultSettings defaultVersionFields "1.0.0.0".data
    (setKey defaultSettings verKey
      (JVal.jobj (setKey defaultVersionFields buildKey (JVal.jnum 1))))
    rfl rfl rfl rfl rfl

/-- Claim C10: module lines keep their trailing newline (readlines
does not strip it), the Combiner appends them as read, and the
newline-join of the output therefore puts an extra empty line after
every inlined module line, so the inlined region is not byte-identical
to the module file even though each individual line is unmodified. -/
theorem module_lines_extra_blank (m : SrcLine) (rest : List SrcLine)
    (hm : m.getLast? = some '\n') (hr : rest ≠ []) :
    renderOutput (m :: rest) = m.dropLast ++ '\n' :: '\n' :: renderOutput rest ∧
    readlinesOf exModContent = exModLines ∧
    combine_powershell_scripts [exImportLine, exTailLine] exFs =
      exModLines ++ ["Write-Host hi".data] ∧
    renderOutput (combine_powershell_scripts [exImportLine, exTailLine] exFs) =
      "X\n\n# c\n\nY\n\nWrite-Host hi".data ∧
    containsSub exModContent
      (renderOutput (combine_powershell_scripts [exImportLine, exTailLine] exFs)) = false := by
  refine ⟨?_, by decide, by decide, by decide, by decide⟩
  have hne : m ≠ [] := by
    intro h0
    rw [h0] at hm
    simp at hm
  have hlast : m.getLast hne = '\n' := by
    have h2 := List.getLast?_eq_getLast m hne
    rw [hm] at h2
    exact (Option.some.injEq _ _).mp h2.symm
  have hdec : m.dropLast ++ ['\n'] = m := by
    rw [← hlast]
    exact List.dropLast_append_getLast hne
  rcases rest with _ | ⟨r, rs⟩
  · exact absurd rfl hr
  · calc renderOutput (m :: r :: rs)
        = m ++ '\n' :: renderOutput (r :: rs) := by
          simp [renderOutput, List.intercalate, List.intersperse]
      _ = (m.dropLast ++ ['\n']) ++ '\n' :: renderOutput (r :: rs) := by rw [hdec]
      _ = m.dropLast ++ '\n' :: '\n' :: renderOutput (r :: rs) := by
          simp [List.append_assoc]

/-- Witness for C10 at a concrete module line followed by more
output. -/
theorem module_lines_extra_blank_witness :
    renderOutput ["X\n".data, "tail".data] =
      ("X\n".data).dropLast ++ '\n' :: '\n' :: renderOutput ["tail".data] :=
  (module_lines_extra_blank "X\n".data ["tail".data] (by decide) (by decide)).1
